import Mathlib

/-!
Verification of the inventory PDF report generator of MCC_RadioTrack
(`pdf_generator.py`).

The generator is shallowly embedded: a produced PDF is modelled as the
ordered list of flowable elements appended to `elements` before
`doc.build`, abstracting away purely visual styling (fonts, colors,
column widths).  Strings are compared and sliced the way Python does:
by code points, so every Python string operation used by the code
(`len`, slicing `[:n]`, `+`, `sorted`, `int()`) is modelled on
`String.data : List Char`.
-/

namespace RadioTrack

/-- One inventory record as produced by the data access layer
(`get_items()`): id, name, category, location, condition, notes.
`notes = none` models a pandas NaN/missing value (`pd.notna` false). -/
structure Item where
  id : Int
  name : String
  category : String
  location : String
  condition : String
  notes : Option String
  deriving DecidableEq

/-- A rendered row of the single-criterion table
(columns "Item Name", "Category", "Location", "Condition", "Notes"). -/
structure Row where
  name : String
  category : String
  location : String
  condition : String
  notes : String
  deriving DecidableEq

/-- A rendered row of a per-location table of a `complete` report
(columns "Item Name", "Category", "Condition", "Notes"). -/
structure LocRow where
  name : String
  category : String
  condition : String
  notes : String
  deriving DecidableEq

/-- A document flowable, in the order the code appends it to `elements`.
`timestamp` abstracts the "Generated on <date>" paragraph (the date comes
from the clock), `spacer` a `Spacer(..)`, `para` a plain paragraph of the
fallback document. -/
inductive Element where
  | title (text : String)
  | timestamp
  | spacer
  | para (text : String)
  | summary (total : Nat)
  | table (rows : List Row)
  | locationHeader (loc : String) (count : Nat)
  | locTable (rows : List LocRow)
  deriving DecidableEq

/-- Python `len(s)`: number of code points. -/
def pyLen (s : String) : Nat := s.data.length

/-- Python `s[:n]`: first `n` code points. -/
def pySlice (s : String) (n : Nat) : String := String.mk (s.data.take n)

/-- The truncation idiom of the code:
`s[:b] + "..." if len(s) > b else s`. -/
def truncF (b : Nat) (s : String) : String :=
  if pyLen s > b then pySlice s b ++ "..." else s

/-- Python truthiness of the `filter_value` argument (`None` and the
empty string are falsy; any other string is truthy). -/
def pyTruthy : Option String → Bool
  | some s => !(s == "")
  | none => false

/-- The string carried by the filter value (only consulted when truthy). -/
def fvStr : Option String → String
  | some s => s
  | none => ""

/-- Value of a decimal digit character. -/
def digitsToNat (l : List Char) : Nat :=
  l.foldl (fun acc c => acc * 10 + (c.toNat - 48)) 0

/-- Python `int(s)` on a string argument: optional surrounding
whitespace, an optional sign, then a non-empty run of decimal digits;
anything else raises `ValueError`, modelled as `none`. -/
def pyInt (s : String) : Option Int :=
  let t := ((s.data.dropWhile Char.isWhitespace).reverse.dropWhile
    Char.isWhitespace).reverse
  match t with
  | '-' :: ds =>
      if ds.length > 0 && ds.all Char.isDigit then
        some (-(digitsToNat ds : Int)) else none
  | '+' :: ds =>
      if ds.length > 0 && ds.all Char.isDigit then
        some ((digitsToNat ds : Int)) else none
  | ds =>
      if ds.length > 0 && ds.all Char.isDigit then
        some ((digitsToNat ds : Int)) else none

/-- Python string comparison used by `sorted`: code-point lexicographic
order, i.e. the lexicographic order on the character lists. -/
def locLe (a b : String) : Prop := a.data ≤ b.data

instance : DecidableRel locLe := fun a b =>
  inferInstanceAs (Decidable (a.data ≤ b.data))

instance : IsTotal String locLe := ⟨fun a b => le_total a.data b.data⟩

instance : IsTrans String locLe :=
  ⟨fun _ _ _ h1 h2 => le_trans h1 h2⟩

instance : IsAntisymm String locLe :=
  ⟨fun a b h1 h2 => by
    cases a; cases b; exact congrArg String.mk (le_antisymm h1 h2)⟩

/-- Python `sorted(locations)`: a sort of the list under `locLe`. -/
def pySorted (l : List String) : List String := List.insertionSort locLe l

/-- Row of the single-criterion table built from one item
(`pdf_generator.py` lines 104–112): name and notes truncated at 50
characters, category and location at 30; missing notes render as "". -/
def mkRow (i : Item) : Row :=
  { name := truncF 50 i.name
    category := truncF 30 i.category
    location := truncF 30 i.location
    condition := i.condition
    notes := match i.notes with
      | some s => truncF 50 s
      | none => "" }

/-- Row of a per-location table of a `complete` report
(lines 175–182): budgets 45 (name), 25 (category), 40 (notes). -/
def mkLocRow (i : Item) : LocRow :=
  { name := truncF 45 i.name
    category := truncF 25 i.category
    condition := i.condition
    notes := match i.notes with
      | some s => truncF 40 s
      | none => "" }

/-- The filtering block of `generate_inventory_pdf` (lines 52–65):
selects the item subset and the title string.  The only failing
operation is `int(filter_value)` for an `item` report with a truthy
filter value; failure is the `ValueError` it raises. -/
def selectAndTitle (items : List Item) (rt : String) (fv : Option String) :
    Except String (List Item × String) :=
  if rt = "item" ∧ pyTruthy fv = true then
    match pyInt (fvStr fv) with
    | some n =>
        let sel := items.filter (fun i => i.id == n)
        Except.ok (sel, "MCC Radio Inventory - Item: " ++
          ((sel.head?.map Item.name).getD "Not Found"))
    | none => Except.error "ValueError"
  else if rt = "location" ∧ pyTruthy fv = true then
    Except.ok (items.filter (fun i => i.location == fvStr fv),
      "MCC Radio Inventory - Location: " ++ fvStr fv)
  else if rt = "category" ∧ pyTruthy fv = true then
    Except.ok (items.filter (fun i => i.category == fvStr fv),
      "MCC Radio Inventory - Category: " ++ fvStr fv)
  else if rt = "condition" ∧ pyTruthy fv = true then
    Except.ok (items.filter (fun i => i.condition == fvStr fv),
      "MCC Radio Inventory - Condition: " ++ fvStr fv)
  else
    Except.ok (items, "MCC Radio Inventory")

/-- The per-location loop of a `complete` report (lines 157–221), run
over an already sorted location list: a location with matching items
contributes header, spacer, table, spacer; a location without matching
items contributes nothing (the `if len(location_items) > 0` guard). -/
def sectionsFor (sel : List Item) : List String → List Element
  | [] => []
  | loc :: rest =>
      let locItems := sel.filter (fun i => i.location == loc)
      (if locItems.length > 0 then
        [Element.locationHeader loc locItems.length, Element.spacer,
         Element.locTable (locItems.map mkLocRow), Element.spacer]
      else []) ++ sectionsFor sel rest

/-- Lines 156–221: iterate `sorted(get_locations())`. -/
def completeSections (sel : List Item) (locations : List String) :
    List Element :=
  sectionsFor sel (pySorted locations)

/-- The body of the `try` block of `generate_inventory_pdf`
(lines 35–224): the element list handed to `doc.build`, or the
exception text. -/
def buildElements (items : List Item) (locations : List String)
    (rt : String) (fv : Option String) : Except String (List Element) :=
  match selectAndTitle items rt fv with
  | Except.error e => Except.error e
  | Except.ok (sel, docTitle) =>
      let base := [Element.title docTitle, Element.timestamp, Element.spacer]
      let summaryEs :=
        if rt = "complete" ∧ sel.length > 0 then
          [Element.summary sel.length, Element.spacer]
        else []
      let tableEs :=
        if (rt = "category" ∨ rt = "condition" ∨ rt = "location") ∧
            pyTruthy fv = true ∧ sel.length > 0 then
          [Element.table (sel.map mkRow)]
        else if rt = "complete" ∧ sel.length > 0 then
          completeSections sel locations
        else []
      Except.ok (base ++ summaryEs ++ tableEs)

/-- `create_fallback_pdf` (lines 234–247): title plus two lines of
generic error text, one page. -/
def fallbackElements : List Element :=
  [Element.title "RadioTrack Inventory Report",
   Element.para "PDF generation encountered an issue.",
   Element.para "Please check the application data and try again."]

/-- `generate_inventory_pdf` (lines 24–232): the element list of the
document whose byte stream is returned.  The `except Exception` handler
(lines 226–229) replaces any raised error by the fallback document. -/
def generate_inventory_pdf (items : List Item) (locations : List String)
    (rt : String) (fv : Option String) : List Element :=
  match buildElements items locations rt fv with
  | Except.ok es => es
  | Except.error _ => fallbackElements

/-- An element is a summary block. -/
def Element.isSummary : Element → Bool
  | Element.summary _ => true
  | _ => false

/-- An element is an item table (of either report family). -/
def Element.isItemTable : Element → Bool
  | Element.table _ => true
  | Element.locTable _ => true
  | _ => false

/-- An element is the location header of `loc`. -/
def Element.isHeaderFor (loc : String) : Element → Bool
  | Element.locationHeader l _ => l == loc
  | _ => false

/-- The `(location, count)` pairs of the location headers of a
document, in order of appearance. -/
def sectionHeaders (es : List Element) : List (String × Nat) :=
  es.filterMap fun e =>
    match e with
    | Element.locationHeader l c => some (l, c)
    | _ => none

/-- Sum of the item counts of the per-location sections. -/
def sumSectionCounts (es : List Element) : Nat :=
  ((sectionHeaders es).map Prod.snd).sum

/-! ### Characterization lemmas -/

theorem pyTruthy_some {v : String} (hv : v ≠ "") :
    pyTruthy (some v) = true := by
  simp [pyTruthy, hv]

theorem selectAndTitle_else (items : List Item) (rt : String)
    (fv : Option String)
    (h1 : ¬(rt = "item" ∧ pyTruthy fv = true))
    (h2 : ¬(rt = "location" ∧ pyTruthy fv = true))
    (h3 : ¬(rt = "category" ∧ pyTruthy fv = true))
    (h4 : ¬(rt = "condition" ∧ pyTruthy fv = true)) :
    selectAndTitle items rt fv = Except.ok (items, "MCC Radio Inventory") := by
  unfold selectAndTitle
  rw [if_neg h1, if_neg h2, if_neg h3, if_neg h4]

theorem selectAndTitle_item_ok (items : List Item) (v : String) (n : Int)
    (hv : v ≠ "") (hn : pyInt v = some n) :
    selectAndTitle items "item" (some v) =
      Except.ok (items.filter (fun i => i.id == n),
        "MCC Radio Inventory - Item: " ++
          (((items.filter (fun i => i.id == n)).head?.map Item.name).getD
            "Not Found")) := by
  unfold selectAndTitle
  rw [if_pos ⟨rfl, pyTruthy_some hv⟩]
  simp only [fvStr]
  rw [hn]

theorem selectAndTitle_item_err (items : List Item) (v : String)
    (hv : v ≠ "") (hn : pyInt v = none) :
    selectAndTitle items "item" (some v) = Except.error "ValueError" := by
  unfold selectAndTitle
  rw [if_pos ⟨rfl, pyTruthy_some hv⟩]
  simp only [fvStr]
  rw [hn]

theorem selectAndTitle_location (items : List Item) (v : String)
    (hv : v ≠ "") :
    selectAndTitle items "location" (some v) =
      Except.ok (items.filter (fun i => i.location == v),
        "MCC Radio Inventory - Location: " ++ v) := by
  unfold selectAndTitle
  rw [if_neg (fun h => absurd h.1 (by decide)),
    if_pos ⟨rfl, pyTruthy_some hv⟩]
  simp only [fvStr]

theorem selectAndTitle_category (items : List Item) (v : String)
    (hv : v ≠ "") :
    selectAndTitle items "category" (some v) =
      Except.ok (items.filter (fun i => i.category == v),
        "MCC Radio Inventory - Category: " ++ v) := by
  unfold selectAndTitle
  rw [if_neg (fun h => absurd h.1 (by decide)),
    if_neg (fun h => absurd h.1 (by decide)),
    if_pos ⟨rfl, pyTruthy_some hv⟩]
  simp only [fvStr]

theorem selectAndTitle_condition (items : List Item) (v : String)
    (hv : v ≠ "") :
    selectAndTitle items "condition" (some v) =
      Except.ok (items.filter (fun i => i.condition == v),
        "MCC Radio Inventory - Condition: " ++ v) := by
  unfold selectAndTitle
  rw [if_neg (fun h => absurd h.1 (by decide)),
    if_neg (fun h => absurd h.1 (by decide)),
    if_neg (fun h => absurd h.1 (by decide)),
    if_pos ⟨rfl, pyTruthy_some hv⟩]
  simp only [fvStr]

theorem buildElements_of_select (items : List Item) (locs : List String)
    (rt : String) (fv : Option String) (sel : List Item) (t : String)
    (h : selectAndTitle items rt fv = Except.ok (sel, t)) :
    buildElements items locs rt fv = Except.ok
      ([Element.title t, Element.timestamp, Element.spacer] ++
        (if rt = "complete" ∧ sel.length > 0 then
          [Element.summary sel.length, Element.spacer] else []) ++
        (if (rt = "category" ∨ rt = "condition" ∨ rt = "location") ∧
            pyTruthy fv = true ∧ sel.length > 0 then
          [Element.table (sel.map mkRow)]
        else if rt = "complete" ∧ sel.length > 0 then
          completeSections sel locs
        else [])) := by
  unfold buildElements
  rw [h]

theorem buildElements_of_select_err (items : List Item) (locs : List String)
    (rt : String) (fv : Option String) (e : String)
    (h : selectAndTitle items rt fv = Except.error e) :
    buildElements items locs rt fv = Except.error e := by
  unfold buildElements
  rw [h]

theorem generate_of_ok (items : List Item) (locs : List String)
    (rt : String) (fv : Option String) (es : List Element)
    (h : buildElements items locs rt fv = Except.ok es) :
    generate_inventory_pdf items locs rt fv = es := by
  unfold generate_inventory_pdf
  rw [h]

theorem generate_of_err (items : List Item) (locs : List String)
    (rt : String) (fv : Option String) (e : String)
    (h : buildElements items locs rt fv = Except.error e) :
    generate_inventory_pdf items locs rt fv = fallbackElements := by
  unfold generate_inventory_pdf
  rw [h]

theorem generate_complete (items : List Item) (locs : List String)
    (fv : Option String) :
    generate_inventory_pdf items locs "complete" fv =
      [Element.title "MCC Radio Inventory", Element.timestamp,
        Element.spacer] ++
      (if items.length > 0 then
        [Element.summary items.length, Element.spacer] else []) ++
      (if items.length > 0 then completeSections items locs else []) := by
  refine generate_of_ok _ _ _ _ _ ?_
  have hsel := selectAndTitle_else items "complete" fv
    (fun h => absurd h.1 (by decide)) (fun h => absurd h.1 (by decide))
    (fun h => absurd h.1 (by decide)) (fun h => absurd h.1 (by decide))
  rw [buildElements_of_select items locs "complete" fv items
    "MCC Radio Inventory" hsel]
  have hC1 : ¬((("complete" : String) = "category" ∨
      ("complete" : String) = "condition" ∨
      ("complete" : String) = "location") ∧
      pyTruthy fv = true ∧ items.length > 0) := by
    rintro ⟨h | h | h, -⟩ <;> exact absurd h (by decide)
  rw [if_neg hC1]
  simp only [eq_self_iff_true, true_and]

theorem generate_location (items : List Item) (locs : List String)
    (v : String) (hv : v ≠ "") :
    generate_inventory_pdf items locs "location" (some v) =
      [Element.title ("MCC Radio Inventory - Location: " ++ v),
        Element.timestamp, Element.spacer] ++
      (if (items.filter (fun i => i.location == v)).length > 0 then
        [Element.table ((items.filter (fun i => i.location == v)).map mkRow)]
      else []) := by
  refine generate_of_ok _ _ _ _ _ ?_
  rw [buildElements_of_select items locs "location" (some v) _ _
    (selectAndTitle_location items v hv)]
  have hsum : ¬(("location" : String) = "complete" ∧
      (items.filter (fun i => i.location == v)).length > 0) :=
    fun h => absurd h.1 (by decide)
  rw [if_neg hsum]
  have hc : ((("location" : String) = "category" ∨
      ("location" : String) = "condition" ∨
      ("location" : String) = "location") ∧
      pyTruthy (some v) = true ∧
      (items.filter (fun i => i.location == v)).length > 0) ↔
      ((items.filter (fun i => i.location == v)).length > 0) := by
    constructor
    · rintro ⟨-, -, h⟩; exact h
    · intro h; exact ⟨Or.inr (Or.inr rfl), pyTruthy_some hv, h⟩
  rw [if_congr hc rfl rfl, if_neg hsum]
  simp

theorem generate_category (items : List Item) (locs : List String)
    (v : String) (hv : v ≠ "") :
    generate_inventory_pdf items locs "category" (some v) =
      [Element.title ("MCC Radio Inventory - Category: " ++ v),
        Element.timestamp, Element.spacer] ++
      (if (items.filter (fun i => i.category == v)).length > 0 then
        [Element.table ((items.filter (fun i => i.category == v)).map mkRow)]
      else []) := by
  refine generate_of_ok _ _ _ _ _ ?_
  rw [buildElements_of_select items locs "category" (some v) _ _
    (selectAndTitle_category items v hv)]
  have hsum : ¬(("category" : String) = "complete" ∧
      (items.filter (fun i => i.category == v)).length > 0) :=
    fun h => absurd h.1 (by decide)
  rw [if_neg hsum]
  have hc : ((("category" : String) = "category" ∨
      ("category" : String) = "condition" ∨
      ("category" : String) = "location") ∧
      pyTruthy (some v) = true ∧
      (items.filter (fun i => i.category == v)).length > 0) ↔
      ((items.filter (fun i => i.category == v)).length > 0) := by
    constructor
    · rintro ⟨-, -, h⟩; exact h
    · intro h; exact ⟨Or.inl rfl, pyTruthy_some hv, h⟩
  rw [if_congr hc rfl rfl, if_neg hsum]
  simp

theorem generate_condition (items : List Item) (locs : List String)
    (v : String) (hv : v ≠ "") :
    generate_inventory_pdf items locs "condition" (some v) =
      [Element.title ("MCC Radio Inventory - Condition: " ++ v),
        Element.timestamp, Element.spacer] ++
      (if (items.filter (fun i => i.condition == v)).length > 0 then
        [Element.table
          ((items.filter (fun i => i.condition == v)).map mkRow)]
      else []) := by
  refine generate_of_ok _ _ _ _ _ ?_
  rw [buildElements_of_select items locs "condition" (some v) _ _
    (selectAndTitle_condition items v hv)]
  have hsum : ¬(("condition" : String) = "complete" ∧
      (items.filter (fun i => i.condition == v)).length > 0) :=
    fun h => absurd h.1 (by decide)
  rw [if_neg hsum]
  have hc : ((("condition" : String) = "category" ∨
      ("condition" : String) = "condition" ∨
      ("condition" : String) = "location") ∧
      pyTruthy (some v) = true ∧
      (items.filter (fun i => i.condition == v)).length > 0) ↔
      ((items.filter (fun i => i.condition == v)).length > 0) := by
    constructor
    · rintro ⟨-, -, h⟩; exact h
    · intro h; exact ⟨Or.inr (Or.inl rfl), pyTruthy_some hv, h⟩
  rw [if_congr hc rfl rfl, if_neg hsum]
  simp

theorem buildElements_item_ok (items : List Item) (locs : List String)
    (v : String) (n : Int) (hv : v ≠ "") (hn : pyInt v = some n) :
    buildElements items locs "item" (some v) = Except.ok
      [Element.title ("MCC Radio Inventory - Item: " ++
        (((items.filter (fun i => i.id == n)).head?.map Item.name).getD
          "Not Found")),
       Element.timestamp, Element.spacer] := by
  rw [buildElements_of_select items locs "item" (some v) _ _
    (selectAndTitle_item_ok items v n hv hn)]
  have hsum : ¬(("item" : String) = "complete" ∧
      (items.filter (fun i => i.id == n)).length > 0) :=
    fun h => absurd h.1 (by decide)
  have hC1 : ¬((("item" : String) = "category" ∨
      ("item" : String) = "condition" ∨
      ("item" : String) = "location") ∧
      pyTruthy (some v) = true ∧
      (items.filter (fun i => i.id == n)).length > 0) := by
    rintro ⟨h | h | h, -⟩ <;> exact absurd h (by decide)
  rw [if_neg hsum, if_neg hC1, if_neg hsum]
  simp

theorem generate_item_ok (items : List Item) (locs : List String)
    (v : String) (n : Int) (hv : v ≠ "") (hn : pyInt v = some n) :
    generate_inventory_pdf items locs "item" (some v) =
      [Element.title ("MCC Radio Inventory - Item: " ++
        (((items.filter (fun i => i.id == n)).head?.map Item.name).getD
          "Not Found")),
       Element.timestamp, Element.spacer] :=
  generate_of_ok _ _ _ _ _ (buildElements_item_ok items locs v n hv hn)

theorem generate_item_err (items : List Item) (locs : List String)
    (v : String) (hv : v ≠ "") (hn : pyInt v = none) :
    generate_inventory_pdf items locs "item" (some v) = fallbackElements :=
  generate_of_err _ _ _ _ _ (buildElements_of_select_err items locs "item"
    (some v) _ (selectAndTitle_item_err items v hv hn))

theorem selectAndTitle_of_fallthrough (items : List Item) (rt : String)
    (fv : Option String)
    (h2 : ¬(rt = "item" ∨ rt = "location" ∨ rt = "category" ∨
        rt = "condition") ∨ pyTruthy fv = false) :
    selectAndTitle items rt fv = Except.ok (items, "MCC Radio Inventory") := by
  have hne : ∀ s : String, (rt = s →
      (rt = "item" ∨ rt = "location" ∨ rt = "category" ∨
        rt = "condition")) → ¬(rt = s ∧ pyTruthy fv = true) := by
    intro s hs h
    rcases h2 with h2 | h2
    · exact h2 (hs h.1)
    · rw [h.2] at h2; exact absurd h2 (by decide)
  exact selectAndTitle_else items rt fv
    (hne "item" (fun h => Or.inl h))
    (hne "location" (fun h => Or.inr (Or.inl h)))
    (hne "category" (fun h => Or.inr (Or.inr (Or.inl h))))
    (hne "condition" (fun h => Or.inr (Or.inr (Or.inr h))))

theorem buildElements_fallthrough (items : List Item) (locs : List String)
    (rt : String) (fv : Option String) (h1 : rt ≠ "complete")
    (h2 : ¬(rt = "item" ∨ rt = "location" ∨ rt = "category" ∨
        rt = "condition") ∨ pyTruthy fv = false) :
    buildElements items locs rt fv = Except.ok
      [Element.title "MCC Radio Inventory", Element.timestamp,
        Element.spacer] := by
  have hsel := selectAndTitle_of_fallthrough items rt fv h2
  rw [buildElements_of_select items locs rt fv items
    "MCC Radio Inventory" hsel]
  have hsum : ¬(rt = "complete" ∧ items.length > 0) := fun h => h1 h.1
  have hC1 : ¬((rt = "category" ∨ rt = "condition" ∨ rt = "location") ∧
      pyTruthy fv = true ∧ items.length > 0) := by
    rintro ⟨hr, hp, -⟩
    rcases h2 with h2 | h2
    · refine h2 ?_
      rcases hr with h | h | h
      · exact Or.inr (Or.inr (Or.inl h))
      · exact Or.inr (Or.inr (Or.inr h))
      · exact Or.inr (Or.inl h)
    · rw [hp] at h2; exact absurd h2 (by decide)
  rw [if_neg hsum, if_neg hC1, if_neg hsum]
  simp

theorem generate_fallthrough (items : List Item) (locs : List String)
    (rt : String) (fv : Option String) (h1 : rt ≠ "complete")
    (h2 : ¬(rt = "item" ∨ rt = "location" ∨ rt = "category" ∨
        rt = "condition") ∨ pyTruthy fv = false) :
    generate_inventory_pdf items locs rt fv =
      [Element.title "MCC Radio Inventory", Element.timestamp,
        Element.spacer] :=
  generate_of_ok _ _ _ _ _ (buildElements_fallthrough items locs rt fv h1 h2)

/-! ### Lemmas about the per-location sections -/

/-- The `if len(location_items) > 0` guard, as a Bool. -/
def hasItems (sel : List Item) (loc : String) : Bool :=
  decide ((sel.filter (fun i => i.location == loc)).length > 0)

theorem sectionHeaders_append (a b : List Element) :
    sectionHeaders (a ++ b) = sectionHeaders a ++ sectionHeaders b :=
  List.filterMap_append a b _

theorem sectionHeaders_sectionsFor (sel : List Item) (L : List String) :
    sectionHeaders (sectionsFor sel L) =
      (L.filter (hasItems sel)).map (fun loc =>
        (loc, (sel.filter (fun i => i.location == loc)).length)) := by
  induction L with
  | nil => rfl
  | cons loc rest ih =>
      rw [sectionsFor, sectionHeaders_append, List.filter_cons]
      by_cases h : (sel.filter (fun i => i.location == loc)).length > 0
      · rw [if_pos h, if_pos (show hasItems sel loc = true by
          simpa [hasItems] using h), List.map_cons, ih]
        rfl
      · rw [if_neg h, if_neg (show ¬hasItems sel loc = true by
          simpa [hasItems] using h), ih]
        rfl

theorem filter_isSummary_sectionsFor (sel : List Item) (L : List String) :
    (sectionsFor sel L).filter Element.isSummary = [] := by
  induction L with
  | nil => rfl
  | cons loc rest ih =>
      rw [sectionsFor, List.filter_append]
      by_cases h : (sel.filter (fun i => i.location == loc)).length > 0
      · rw [if_pos h]
        simpa [Element.isSummary] using ih
      · rw [if_neg h]
        simpa using ih

theorem locTable_mem_sectionsFor (sel : List Item) (L : List String)
    (rows : List LocRow) (h : Element.locTable rows ∈ sectionsFor sel L) :
    ∃ loc ∈ L, (sel.filter (fun i => i.location == loc)).length > 0 ∧
      rows = (sel.filter (fun i => i.location == loc)).map mkLocRow := by
  induction L with
  | nil => exact absurd h (by simp [sectionsFor])
  | cons loc rest ih =>
      rw [sectionsFor] at h
      rcases List.mem_append.1 h with h | h
      · by_cases hp : (sel.filter (fun i => i.location == loc)).length > 0
        · rw [if_pos hp] at h
          simp only [List.mem_cons, List.not_mem_nil, or_false] at h
          rcases h with h | h | h | h
          · exact absurd h (by simp)
          · exact absurd h (by simp)
          · obtain ⟨rfl⟩ := Element.locTable.inj h
            exact ⟨loc, List.mem_cons_self loc rest, hp, rfl⟩
          · exact absurd h (by simp)
        · rw [if_neg hp] at h
          exact absurd h (List.not_mem_nil _)
      · obtain ⟨l, hl, h1, h2⟩ := ih h
        exact ⟨l, List.mem_cons_of_mem _ hl, h1, h2⟩

theorem header_mem_sectionsFor (sel : List Item) (L : List String)
    (loc : String) (hL : loc ∈ L)
    (hp : (sel.filter (fun i => i.location == loc)).length > 0) :
    (loc, (sel.filter (fun i => i.location == loc)).length) ∈
      sectionHeaders (sectionsFor sel L) := by
  rw [sectionHeaders_sectionsFor]
  exact List.mem_map_of_mem _ (List.mem_filter.2 ⟨hL, decide_eq_true hp⟩)

theorem header_count (sel : List Item) (L : List String)
    (loc : String) (c : Nat)
    (h : (loc, c) ∈ sectionHeaders (sectionsFor sel L)) :
    c = (sel.filter (fun i => i.location == loc)).length ∧ 0 < c ∧
      loc ∈ L := by
  rw [sectionHeaders_sectionsFor] at h
  obtain ⟨l, hl, he⟩ := List.mem_map.1 h
  obtain ⟨h1, h2⟩ := Prod.mk.inj he
  subst h1
  obtain ⟨hmem, hdec⟩ := List.mem_filter.1 hl
  subst h2
  exact ⟨rfl, of_decide_eq_true hdec, hmem⟩

/-! ### The sort -/

theorem sorted_pySorted (l : List String) :
    List.Sorted locLe (pySorted l) :=
  List.sorted_insertionSort locLe l

theorem perm_pySorted (l : List String) : (pySorted l).Perm l :=
  List.perm_insertionSort locLe l

theorem pySorted_eq_of_perm {l1 l2 : List String} (h : l1.Perm l2) :
    pySorted l1 = pySorted l2 :=
  List.eq_of_perm_of_sorted
    ((perm_pySorted l1).trans (h.trans (perm_pySorted l2).symm))
    (sorted_pySorted l1) (sorted_pySorted l2)

theorem headers_locs_eq (sel : List Item) (L : List String) :
    (sectionHeaders (sectionsFor sel L)).map Prod.fst =
      L.filter (hasItems sel) := by
  rw [sectionHeaders_sectionsFor, List.map_map]
  exact List.map_id' _

theorem headers_sorted (sel : List Item) (L : List String) :
    List.Sorted locLe
      ((sectionHeaders (sectionsFor sel (pySorted L))).map Prod.fst) := by
  rw [headers_locs_eq]
  exact (sorted_pySorted L).filter _

theorem sectionHeaders_generate_complete (items : List Item)
    (locs : List String) (fv : Option String) :
    sectionHeaders (generate_inventory_pdf items locs "complete" fv) =
      if items.length > 0 then
        sectionHeaders (sectionsFor items (pySorted locs))
      else [] := by
  rw [generate_complete, sectionHeaders_append, sectionHeaders_append]
  by_cases h : items.length > 0
  · rw [if_pos h, if_pos h, if_pos h]
    rfl
  · rw [if_neg h, if_neg h, if_neg h]
    rfl

/-! ### Claims -/

/-- C1: for every report type and every filter value,
`generate_inventory_pdf` returns a document and never propagates an
exception: the caller receives either the normally built element list or,
whenever the build raised (in particular for a non-numeric filter value
of an `item` report), the fallback document of `create_fallback_pdf`,
which is a single page of title plus two lines of generic error text. -/
theorem claim_C1 :
    (∀ (items : List Item) (locs : List String) (rt : String)
        (fv : Option String), ∃ es,
      generate_inventory_pdf items locs rt fv = es ∧
        (buildElements items locs rt fv = Except.ok es ∨
          es = fallbackElements)) ∧
    (∀ (items : List Item) (locs : List String) (v : String), v ≠ "" →
      pyInt v = none →
      generate_inventory_pdf items locs "item" (some v) =
        fallbackElements) ∧
    fallbackElements =
      [Element.title "RadioTrack Inventory Report",
       Element.para "PDF generation encountered an issue.",
       Element.para "Please check the application data and try again."] := by
  refine ⟨?_, ?_, rfl⟩
  · intro items locs rt fv
    cases hb : buildElements items locs rt fv with
    | ok es => exact ⟨es, generate_of_ok _ _ _ _ _ hb, Or.inl rfl⟩
    | error e =>
        exact ⟨fallbackElements, generate_of_err _ _ _ _ _ hb, Or.inr rfl⟩
  · intro items locs v hv hn
    exact generate_item_err items locs v hv hn

/-- Witness for C1 at the concrete non-numeric filter value "abc". -/
theorem claim_C1_witness :
    generate_inventory_pdf [] [] "item" (some "abc") = fallbackElements :=
  claim_C1.2.1 [] [] "abc" (by decide) (by decide)

/-- C2 fails on the code: in this `complete` report the known location
"Empty Wing" has zero matching items, yet no section appears for it in
the produced document — there is no header element for "Empty Wing" at
all (and the element grammar of the code produces no "no items" notice
anywhere), contradicting the claim that every known location is listed. -/
theorem claim_C2_cex :
    ("Empty Wing" : String) ∈ (["Zone1", "Empty Wing"] : List String) ∧
    List.filter (fun i => i.location == "Empty Wing")
      [(⟨1, "Radio A", "Handheld", "Zone1", "Good", none⟩ : Item)] = [] ∧
    (generate_inventory_pdf
      [⟨1, "Radio A", "Handheld", "Zone1", "Good", none⟩]
      ["Zone1", "Empty Wing"] "complete" none).filter
        (Element.isHeaderFor "Empty Wing") = [] := by decide

/-- C2 amended: in a `complete` report a known location with zero
matching items is omitted entirely — no section header and no notice —
while a known location with at least one matching item does get a
section headed by its name and item count. -/
theorem claim_C2_amended :
    ∀ (items : List Item) (locations : List String) (loc : String),
      (items.filter (fun i => i.location == loc) = [] →
        ∀ c, (loc, c) ∉ sectionHeaders
          (generate_inventory_pdf items locations "complete" none)) ∧
      (loc ∈ locations → items.filter (fun i => i.location == loc) ≠ [] →
        (loc, (items.filter (fun i => i.location == loc)).length) ∈
          sectionHeaders
            (generate_inventory_pdf items locations "complete" none)) := by
  intro items locations loc
  rw [sectionHeaders_generate_complete]
  constructor
  · intro hemp c hmem
    by_cases h : items.length > 0
    · rw [if_pos h] at hmem
      obtain ⟨hc, hpos, -⟩ := header_count items (pySorted locations)
        loc c hmem
      rw [hemp] at hc
      simp at hc
      rw [hc] at hpos
      exact absurd hpos (by decide)
    · rw [if_neg h] at hmem
      exact absurd hmem (List.not_mem_nil _)
  · intro hloc hne
    obtain ⟨x, hx⟩ := List.exists_mem_of_ne_nil _ hne
    have hitems : items.length > 0 :=
      List.length_pos.2 (List.ne_nil_of_mem (List.mem_of_mem_filter hx))
    rw [if_pos hitems]
    exact header_mem_sectionsFor items (pySorted locations) loc
      ((perm_pySorted locations).mem_iff.2 hloc) (List.length_pos.2 hne)

/-- Witness for the amended C2: the zero-item location "Empty Wing"
yields no header; "Zone1" with one item yields a header counting it. -/
theorem claim_C2_amended_witness :
    ("Empty Wing", 0) ∉ sectionHeaders (generate_inventory_pdf
      [⟨1, "Radio A", "Handheld", "Zone1", "Good", none⟩]
      ["Zone1", "Empty Wing"] "complete" none) ∧
    ("Zone1", 1) ∈ sectionHeaders (generate_inventory_pdf
      [⟨1, "Radio A", "Handheld", "Zone1", "Good", none⟩]
      ["Zone1", "Empty Wing"] "complete" none) :=
  ⟨(claim_C2_amended _ _ "Empty Wing").1 (by decide) 0,
   (claim_C2_amended _ _ "Zone1").2 (by decide) (by decide)⟩

/-- C3 fails on the code: for the unrecognized kind "bogus" and a
nonempty item set, the produced document is just title, timestamp and
spacer — it contains no item table at all, so it does not present the
(ungrouped) complete item set as the claim states. -/
theorem claim_C3_cex :
    generate_inventory_pdf
        [⟨1, "Radio A", "Handheld", "Zone1", "Good", none⟩]
        ["Zone1"] "bogus" none =
      [Element.title "MCC Radio Inventory", Element.timestamp,
        Element.spacer] ∧
    (generate_inventory_pdf
        [⟨1, "Radio A", "Handheld", "Zone1", "Good", none⟩]
        ["Zone1"] "bogus" none).filter Element.isItemTable = [] := by decide

/-- C3 amended: for an unrecognized report kind, or a filtering kind
with a missing (falsy) filter value, the selection step does fall back
to the complete ungrouped item set with the generic title, but the
rendered document presents no items: it consists of title, timestamp
and spacer only, with no table and no summary. -/
theorem claim_C3_amended :
    ∀ (items : List Item) (locs : List String) (rt : String)
      (fv : Option String), rt ≠ "complete" →
      (¬(rt = "item" ∨ rt = "location" ∨ rt = "category" ∨
          rt = "condition") ∨ pyTruthy fv = false) →
      selectAndTitle items rt fv =
        Except.ok (items, "MCC Radio Inventory") ∧
      generate_inventory_pdf items locs rt fv =
        [Element.title "MCC Radio Inventory", Element.timestamp,
          Element.spacer] := by
  intro items locs rt fv h1 h2
  exact ⟨selectAndTitle_of_fallthrough items rt fv h2,
    generate_fallthrough items locs rt fv h1 h2⟩

/-- Witness for the amended C3 at the unrecognized kind "bogus". -/
theorem claim_C3_amended_witness :
    selectAndTitle [⟨1, "Radio A", "Handheld", "Zone1", "Good", none⟩]
        "bogus" none =
      Except.ok ([⟨1, "Radio A", "Handheld", "Zone1", "Good", none⟩],
        "MCC Radio Inventory") ∧
    generate_inventory_pdf
        [⟨1, "Radio A", "Handheld", "Zone1", "Good", none⟩]
        ["Zone1"] "bogus" none =
      [Element.title "MCC Radio Inventory", Element.timestamp,
        Element.spacer] :=
  claim_C3_amended _ ["Zone1"] "bogus" none (by decide)
    (Or.inl (by decide))

/-- C4: for an `item` report whose numeric filter value matches no item,
the build succeeds (no exception) and the document carries a title with
the "Not Found" marker and no item table — indeed no table element and
no row at all. -/
theorem claim_C4 :
    ∀ (items : List Item) (locs : List String) (v : String) (n : Int),
      v ≠ "" → pyInt v = some n → (∀ i ∈ items, ¬i.id = n) →
      buildElements items locs "item" (some v) = Except.ok
        [Element.title "MCC Radio Inventory - Item: Not Found",
         Element.timestamp, Element.spacer] ∧
      generate_inventory_pdf items locs "item" (some v) =
        [Element.title "MCC Radio Inventory - Item: Not Found",
         Element.timestamp, Element.spacer] := by
  intro items locs v n hv hn hnone
  have hfil : items.filter (fun i => i.id == n) = [] := by
    rw [List.filter_eq_nil_iff]
    intro a ha
    simpa using hnone a ha
  have hb := buildElements_item_ok items locs v n hv hn
  rw [hfil] at hb
  have hT : ("MCC Radio Inventory - Item: " ++
      ((([] : List Item).head?.map Item.name).getD "Not Found")) =
      "MCC Radio Inventory - Item: Not Found" := by decide
  rw [hT] at hb
  exact ⟨hb, generate_of_ok _ _ _ _ _ hb⟩

/-- Witness for C4: id 999 matches nothing in a one-item inventory. -/
theorem claim_C4_witness :
    buildElements [⟨1, "Radio A", "Handheld", "Zone1", "Good", none⟩] []
        "item" (some "999") = Except.ok
      [Element.title "MCC Radio Inventory - Item: Not Found",
       Element.timestamp, Element.spacer] ∧
    generate_inventory_pdf
        [⟨1, "Radio A", "Handheld", "Zone1", "Good", none⟩] []
        "item" (some "999") =
      [Element.title "MCC Radio Inventory - Item: Not Found",
       Element.timestamp, Element.spacer] :=
  claim_C4 _ [] "999" 999 (by decide) (by decide) (by decide)

/-- C5 fails on the code: for the empty item set the `complete` report
contains no summary block at all (the code gates it on
`len(items) > 0`), while the claim requires a summary whose total, 0,
equals the item count. -/
theorem claim_C5_cex :
    generate_inventory_pdf [] ["Zone1"] "complete" none =
      [Element.title "MCC Radio Inventory", Element.timestamp,
        Element.spacer] ∧
    (generate_inventory_pdf [] ["Zone1"] "complete" none).filter
      Element.isSummary = [] := by decide

/-- C5 amended: for every nonempty input item set the `complete` report
contains exactly one summary block, and its total equals the number of
items passed in; for the empty item set the summary block is omitted. -/
theorem claim_C5_amended :
    ∀ (items : List Item) (locs : List String),
      (items ≠ [] →
        (generate_inventory_pdf items locs "complete" none).filter
          Element.isSummary = [Element.summary items.length]) ∧
      (items = [] →
        (generate_inventory_pdf items locs "complete" none).filter
          Element.isSummary = []) := by
  intro items locs
  rw [generate_complete, List.filter_append, List.filter_append]
  constructor
  · intro hne
    have h : items.length > 0 := List.length_pos.2 hne
    rw [if_pos h, if_pos h]
    have h3 : (completeSections items locs).filter Element.isSummary = [] :=
      filter_isSummary_sectionsFor items (pySorted locs)
    rw [h3]
    simp [Element.isSummary]
  · intro he
    subst he
    rw [if_neg (by decide), if_neg (by decide)]
    simp [Element.isSummary]

/-- Witness for the amended C5: one item gives summary total 1; the
empty set gives no summary block. -/
theorem claim_C5_amended_witness :
    (generate_inventory_pdf
      [⟨1, "Radio A", "Handheld", "Zone1", "Good", none⟩]
      ["Zone1"] "complete" none).filter Element.isSummary =
        [Element.summary 1] ∧
    (generate_inventory_pdf [] ["Zone1"] "complete" none).filter
      Element.isSummary = [] :=
  ⟨(claim_C5_amended _ ["Zone1"]).1 (by decide),
   (claim_C5_amended [] ["Zone1"]).2 rfl⟩

theorem table_rows_single (items : List Item) (locs : List String)
    (rt : String) (v : String) (rows : List Row)
    (h : rt = "category" ∨ rt = "condition" ∨ rt = "location")
    (hv : v ≠ "")
    (hmem : Element.table rows ∈
      generate_inventory_pdf items locs rt (some v)) :
    ∃ sel : List Item, (∀ i ∈ sel, i ∈ items) ∧ rows = sel.map mkRow := by
  rcases h with rfl | rfl | rfl
  · rw [generate_category items locs v hv] at hmem
    rcases List.mem_append.1 hmem with h | h
    · simp at h
    · by_cases hl : (items.filter (fun i => i.category == v)).length > 0
      · rw [if_pos hl] at h
        simp at h
        exact ⟨_, fun i hi => List.mem_of_mem_filter hi, h⟩
      · rw [if_neg hl] at h; exact absurd h (List.not_mem_nil _)
  · rw [generate_condition items locs v hv] at hmem
    rcases List.mem_append.1 hmem with h | h
    · simp at h
    · by_cases hl : (items.filter (fun i => i.condition == v)).length > 0
      · rw [if_pos hl] at h
        simp at h
        exact ⟨_, fun i hi => List.mem_of_mem_filter hi, h⟩
      · rw [if_neg hl] at h; exact absurd h (List.not_mem_nil _)
  · rw [generate_location items locs v hv] at hmem
    rcases List.mem_append.1 hmem with h | h
    · simp at h
    · by_cases hl : (items.filter (fun i => i.location == v)).length > 0
      · rw [if_pos hl] at h
        simp at h
        exact ⟨_, fun i hi => List.mem_of_mem_filter hi, h⟩
      · rw [if_neg hl] at h; exact absurd h (List.not_mem_nil _)

/-- C7: every row of a single-criterion table renders each text field
hard-truncated to its budget — 50 characters for name and (present)
notes, 30 for category and location — with "..." appended exactly when
the field exceeds the budget, and unchanged otherwise; missing notes
render as the empty string. -/
theorem claim_C7 :
    ∀ (items : List Item) (locs : List String) (rt : String) (v : String)
      (rows : List Row),
      (rt = "category" ∨ rt = "condition" ∨ rt = "location") →
      Element.table rows ∈
        generate_inventory_pdf items locs rt (some v) →
      ∀ r ∈ rows, ∃ i ∈ items,
        r.name = (if pyLen i.name > 50 then pySlice i.name 50 ++ "..."
          else i.name) ∧
        r.notes = (match i.notes with
          | some s => if pyLen s > 50 then pySlice s 50 ++ "..." else s
          | none => "") ∧
        r.category = (if pyLen i.category > 30 then
          pySlice i.category 30 ++ "..." else i.category) ∧
        r.location = (if pyLen i.location > 30 then
          pySlice i.location 30 ++ "..." else i.location) := by
  intro items locs rt v rows h hmem r hr
  by_cases hv : v = ""
  · subst hv
    have h1 : rt ≠ "complete" := by
      rcases h with rfl | rfl | rfl <;> decide
    rw [generate_fallthrough items locs rt (some "") h1
      (Or.inr (by decide))] at hmem
    simp at hmem
  · obtain ⟨sel, hsub, hrows⟩ :=
      table_rows_single items locs rt v rows h hv hmem
    rw [hrows] at hr
    obtain ⟨i, hi, hri⟩ := List.mem_map.1 hr
    subst hri
    exact ⟨i, hsub i hi, rfl, rfl, rfl, rfl⟩

/-- A 60-character item name, for exercising truncation. -/
def xName : String := String.mk (List.replicate 60 'x')

/-- A concrete item whose name exceeds the 50-character budget. -/
def xItem : Item := ⟨7, xName, "Handheld", "Zone1", "Good", some "note"⟩

/-- The row the single-criterion table renders for `xItem`. -/
def xRow : Row :=
  ⟨pySlice xName 50 ++ "...", "Handheld", "Zone1", "Good", "note"⟩

/-- Witness for C7: the 60-character name is cut to its first 50
characters plus "...", while the short fields appear unchanged. -/
theorem claim_C7_witness :
    ∃ i ∈ [xItem],
      xRow.name = (if pyLen i.name > 50 then pySlice i.name 50 ++ "..."
        else i.name) ∧
      xRow.notes = (match i.notes with
        | some s => if pyLen s > 50 then pySlice s 50 ++ "..." else s
        | none => "") ∧
      xRow.category = (if pyLen i.category > 30 then
        pySlice i.category 30 ++ "..." else i.category) ∧
      xRow.location = (if pyLen i.location > 30 then
        pySlice i.location 30 ++ "..." else i.location) :=
  claim_C7 [xItem] [] "category" "Handheld" [xRow] (Or.inl rfl)
    (by decide) xRow (by decide)

/-- C6: for a `location` report with truthy filter value V, selection is
case-sensitive exact equality on the location field: the table rows are
exactly the rendered rows of the items whose location equals V, so every
row stems from an item with location = V and its rendered location cell
is the 30-character-budget truncation of V — V itself whenever V is at
most 30 characters long; and when no item matches, the document carries
no table (title, timestamp and spacer only) and no error is raised. -/
theorem claim_C6 :
    ∀ (items : List Item) (locs : List String) (v : String), v ≠ "" →
      (∀ rows, Element.table rows ∈
          generate_inventory_pdf items locs "location" (some v) →
        rows = (items.filter (fun i => i.location == v)).map mkRow ∧
        ∀ r ∈ rows, (∃ i ∈ items, i.location = v ∧ r = mkRow i) ∧
          r.location = truncF 30 v ∧ (pyLen v ≤ 30 → r.location = v)) ∧
      (items.filter (fun i => i.location == v) = [] →
        generate_inventory_pdf items locs "location" (some v) =
          [Element.title ("MCC Radio Inventory - Location: " ++ v),
            Element.timestamp, Element.spacer]) := by
  intro items locs v hv
  rw [generate_location items locs v hv]
  constructor
  · intro rows hmem
    have hrows : rows =
        (items.filter (fun i => i.location == v)).map mkRow := by
      rcases List.mem_append.1 hmem with h | h
      · simp at h
      · by_cases hl : (items.filter (fun i => i.location == v)).length > 0
        · rw [if_pos hl] at h
          simpa using h
        · rw [if_neg hl] at h
          exact absurd h (List.not_mem_nil _)
    refine ⟨hrows, ?_⟩
    intro r hr
    rw [hrows] at hr
    obtain ⟨i, hi, hri⟩ := List.mem_map.1 hr
    obtain ⟨hii, hloc⟩ := List.mem_filter.1 hi
    have hlv : i.location = v := by simpa using hloc
    subst hri
    refine ⟨⟨i, hii, hlv, rfl⟩, ?_, ?_⟩
    · show truncF 30 i.location = truncF 30 v
      rw [hlv]
    · intro hlen
      show truncF 30 i.location = v
      rw [hlv]
      unfold truncF
      rw [if_neg (by omega)]
  · intro hemp
    rw [if_neg (by simp [hemp])]
    simp

/-- Witness for C6: the spec's round-trip scenario (one "Zone1" item,
filter "Zone1", one matching row) and a filter value matching nothing. -/
theorem claim_C6_witness :
    ([(⟨"Radio A", "Handheld", "Zone1", "Good", ""⟩ : Row)] =
      (List.filter (fun i => i.location == "Zone1")
        [(⟨1, "Radio A", "Handheld", "Zone1", "Good", some ""⟩ :
          Item)]).map mkRow) ∧
    generate_inventory_pdf
        [⟨2, "Radio B", "Base", "Armory", "Good", none⟩] []
        "location" (some "Zone9") =
      [Element.title ("MCC Radio Inventory - Location: " ++ "Zone9"),
        Element.timestamp, Element.spacer] :=
  ⟨((claim_C6 [⟨1, "Radio A", "Handheld", "Zone1", "Good", some ""⟩] []
      "Zone1" (by decide)).1
      [⟨"Radio A", "Handheld", "Zone1", "Good", ""⟩] (by decide)).1,
   (claim_C6 [⟨2, "Radio B", "Base", "Armory", "Good", none⟩] [] "Zone9"
      (by decide)).2 (by decide)⟩

/-- C8: the per-location sections of a `complete` report appear in
sorted lexical (code-point) order of location name, each headed by its
location name paired with its item count, and the section sequence is
the same for every input ordering of the known-locations list. -/
theorem claim_C8 :
    ∀ (items : List Item) (locations : List String) (fv : Option String),
      List.Sorted locLe ((sectionHeaders
        (generate_inventory_pdf items locations "complete" fv)).map
          Prod.fst) ∧
      (∀ loc c, (loc, c) ∈ sectionHeaders
          (generate_inventory_pdf items locations "complete" fv) →
        c = (items.filter (fun i => i.location == loc)).length ∧
          0 < c) ∧
      (∀ locations2, locations.Perm locations2 →
        sectionHeaders
            (generate_inventory_pdf items locations2 "complete" fv) =
          sectionHeaders
            (generate_inventory_pdf items locations "complete" fv)) := by
  intro items locations fv
  refine ⟨?_, ?_, ?_⟩
  · rw [sectionHeaders_generate_complete]
    by_cases h : items.length > 0
    · rw [if_pos h]
      exact headers_sorted items locations
    · rw [if_neg h]
      exact List.sorted_nil
  · intro loc c hmem
    rw [sectionHeaders_generate_complete] at hmem
    by_cases h : items.length > 0
    · rw [if_pos h] at hmem
      obtain ⟨h1, h2, -⟩ :=
        header_count items (pySorted locations) loc c hmem
      exact ⟨h1, h2⟩
    · rw [if_neg h] at hmem
      exact absurd hmem (List.not_mem_nil _)
  · intro locations2 hperm
    rw [sectionHeaders_generate_complete, sectionHeaders_generate_complete,
      pySorted_eq_of_perm hperm.symm]

/-- Witness for C8: two items in two locations; "Armory" sorts before
"Zone1", its header counts one item, and reversing the input location
list leaves the section sequence unchanged. -/
theorem claim_C8_witness :
    List.Sorted locLe ((sectionHeaders (generate_inventory_pdf
      [⟨1, "Radio A", "Handheld", "Zone1", "Good", none⟩,
       ⟨2, "Radio B", "Base", "Armory", "Poor", none⟩]
      ["Zone1", "Armory"] "complete" none)).map Prod.fst) ∧
    (1 = (List.filter (fun i => i.location == "Armory")
      [(⟨1, "Radio A", "Handheld", "Zone1", "Good", none⟩ : Item),
       ⟨2, "Radio B", "Base", "Armory", "Poor", none⟩]).length ∧
      0 < 1) ∧
    sectionHeaders (generate_inventory_pdf
      [⟨1, "Radio A", "Handheld", "Zone1", "Good", none⟩,
       ⟨2, "Radio B", "Base", "Armory", "Poor", none⟩]
      ["Armory", "Zone1"] "complete" none) =
    sectionHeaders (generate_inventory_pdf
      [⟨1, "Radio A", "Handheld", "Zone1", "Good", none⟩,
       ⟨2, "Radio B", "Base", "Armory", "Poor", none⟩]
      ["Zone1", "Armory"] "complete" none) :=
  ⟨(claim_C8 [⟨1, "Radio A", "Handheld", "Zone1", "Good", none⟩,
      ⟨2, "Radio B", "Base", "Armory", "Poor", none⟩]
      ["Zone1", "Armory"] none).1,
   (claim_C8 [⟨1, "Radio A", "Handheld", "Zone1", "Good", none⟩,
      ⟨2, "Radio B", "Base", "Armory", "Poor", none⟩]
      ["Zone1", "Armory"] none).2.1 "Armory" 1 (by decide),
   (claim_C8 [⟨1, "Radio A", "Handheld", "Zone1", "Good", none⟩,
      ⟨2, "Radio B", "Base", "Armory", "Poor", none⟩]
      ["Zone1", "Armory"] none).2.2 ["Armory", "Zone1"] (by decide)⟩

/-- C9: an `item` report never renders an item table or a summary block,
even when the filter value matches an existing item: a successful build
consists of exactly a title (carrying the matched name, or the Not Found
marker), the generation timestamp, and a spacer. -/
theorem claim_C9 :
    (∀ (items : List Item) (locs : List String) (fv : Option String),
      (generate_inventory_pdf items locs "item" fv).filter
        (fun e => e.isItemTable || e.isSummary) = []) ∧
    (∀ (items : List Item) (locs : List String) (fv : Option String) es,
      buildElements items locs "item" fv = Except.ok es →
      ∃ t, es = [Element.title t, Element.timestamp, Element.spacer]) ∧
    (∀ (items : List Item) (locs : List String) (v : String) (n : Int),
      v ≠ "" → pyInt v = some n →
      generate_inventory_pdf items locs "item" (some v) =
        [Element.title ("MCC Radio Inventory - Item: " ++
          (((items.filter (fun i => i.id == n)).head?.map Item.name).getD
            "Not Found")),
         Element.timestamp, Element.spacer]) := by
  have hsome : ∀ fv : Option String, pyTruthy fv = true →
      ∃ v : String, fv = some v ∧ v ≠ "" := by
    intro fv hfv
    cases fv with
    | none => simp [pyTruthy] at hfv
    | some v =>
        refine ⟨v, rfl, ?_⟩
        intro h
        subst h
        simp [pyTruthy] at hfv
  refine ⟨?_, ?_, ?_⟩
  · intro items locs fv
    by_cases hfv : pyTruthy fv = true
    · obtain ⟨v, rfl, hv⟩ := hsome fv hfv
      cases hn : pyInt v with
      | some n =>
          rw [generate_item_ok items locs v n hv hn]
          rfl
      | none =>
          rw [generate_item_err items locs v hv hn]
          rfl
    · rw [generate_fallthrough items locs "item" fv (by decide)
        (Or.inr (by simpa using hfv))]
      rfl
  · intro items locs fv es hb
    by_cases hfv : pyTruthy fv = true
    · obtain ⟨v, rfl, hv⟩ := hsome fv hfv
      cases hn : pyInt v with
      | some n =>
          rw [buildElements_item_ok items locs v n hv hn] at hb
          exact ⟨_, (Except.ok.inj hb).symm⟩
      | none =>
          rw [buildElements_of_select_err items locs "item" (some v) _
            (selectAndTitle_item_err items v hv hn)] at hb
          exact absurd hb (by simp)
    · rw [buildElements_fallthrough items locs "item" fv (by decide)
        (Or.inr (by simpa using hfv))] at hb
      exact ⟨_, (Except.ok.inj hb).symm⟩
  · intro items locs v n hv hn
    exact generate_item_ok items locs v n hv hn

/-- Witness for C9: the filter value "1" matches the single item, yet
the document is only the title carrying its name plus the timestamp. -/
theorem claim_C9_witness :
    generate_inventory_pdf
        [⟨1, "Radio A", "Handheld", "Zone1", "Good", none⟩] []
        "item" (some "1") =
      [Element.title ("MCC Radio Inventory - Item: " ++
        ((((List.filter (fun i => i.id == 1)
          [(⟨1, "Radio A", "Handheld", "Zone1", "Good", none⟩ :
            Item)]).head?).map Item.name).getD "Not Found")),
       Element.timestamp, Element.spacer] :=
  claim_C9.2.2 _ [] "1" 1 (by decide) (by decide)

theorem filter_isSummary_generate_complete (items : List Item)
    (locs : List String) (fv : Option String) (h : items.length > 0) :
    (generate_inventory_pdf items locs "complete" fv).filter
      Element.isSummary = [Element.summary items.length] := by
  rw [generate_complete, List.filter_append, List.filter_append,
    if_pos h, if_pos h]
  have h3 : (completeSections items locs).filter Element.isSummary = [] :=
    filter_isSummary_sectionsFor items (pySorted locs)
  rw [h3]
  simp [Element.isSummary]

theorem locTable_mem_generate_complete (items : List Item)
    (locs : List String) (fv : Option String) (rows : List LocRow)
    (h : Element.locTable rows ∈
      generate_inventory_pdf items locs "complete" fv) :
    ∃ loc ∈ pySorted locs,
      (items.filter (fun i => i.location == loc)).length > 0 ∧
      rows = (items.filter (fun i => i.location == loc)).map mkLocRow := by
  rw [generate_complete] at h
  rcases List.mem_append.1 h with h | h
  · rcases List.mem_append.1 h with h | h
    · simp at h
    · by_cases hl : items.length > 0
      · rw [if_pos hl] at h
        simp at h
      · rw [if_neg hl] at h
        exact absurd h (List.not_mem_nil _)
  · by_cases hl : items.length > 0
    · rw [if_pos hl] at h
      exact locTable_mem_sectionsFor items (pySorted locs) rows h
    · rw [if_neg hl] at h
      exact absurd h (List.not_mem_nil _)

/-- C10: in a `complete` report an item whose location is not in the
known-locations list is counted by the summary total (the total is the
full item count) but appears in no per-location table: every rendered
location table belongs to a known location different from that item's.
Hence the summary total can strictly exceed the sum of the per-section
item counts, as the second conjunct shows on a concrete instance. -/
theorem claim_C10 :
    (∀ (items : List Item) (locations : List String) (i : Item),
      i ∈ items → i.location ∉ locations →
      (generate_inventory_pdf items locations "complete" none).filter
        Element.isSummary = [Element.summary items.length] ∧
      (∀ rows, Element.locTable rows ∈
          generate_inventory_pdf items locations "complete" none →
        ∃ loc ∈ locations, ¬loc = i.location ∧
          rows = (items.filter (fun j => j.location == loc)).map
            mkLocRow)) ∧
    (∃ (its : List Item) (locs : List String),
      sumSectionCounts
          (generate_inventory_pdf its locs "complete" none) <
        its.length ∧
      (generate_inventory_pdf its locs "complete" none).filter
        Element.isSummary = [Element.summary its.length]) := by
  constructor
  · intro items locations i hi hnloc
    have hlen : items.length > 0 :=
      List.length_pos.2 (List.ne_nil_of_mem hi)
    refine ⟨filter_isSummary_generate_complete items locations none hlen,
      ?_⟩
    intro rows hmem
    obtain ⟨loc, hloc, hpos, hrows⟩ :=
      locTable_mem_generate_complete items locations none rows hmem
    have hlocs : loc ∈ locations :=
      (perm_pySorted locations).mem_iff.1 hloc
    refine ⟨loc, hlocs, ?_, hrows⟩
    intro he
    exact hnloc (he ▸ hlocs)
  · exact ⟨[⟨1, "Radio A", "Handheld", "Ghost", "Good", none⟩],
      ["Zone1"], by decide, by decide⟩

/-- Witness for C10: an item in the unknown location "Ghost" is counted
in the summary of a report whose known-locations list is ["Zone1"]. -/
theorem claim_C10_witness :
    (generate_inventory_pdf
      [⟨1, "Radio A", "Handheld", "Ghost", "Good", none⟩]
      ["Zone1"] "complete" none).filter Element.isSummary =
      [Element.summary 1] :=
  (claim_C10.1 _ ["Zone1"]
    ⟨1, "Radio A", "Handheld", "Ghost", "Good", none⟩
    (by decide) (by decide)).1

end RadioTrack
